import Mathlib

/-!
Verification of the subtitle (SRT) pipeline of the Transcribe_srt repository.

The development shallowly embeds the pure computational core of the
repository's Python sources:

* `src/utils.py` — the timestamp codec (`format_time`, `parse_srt_timestamp`,
  `format_srt_timestamp`), the subtitle serializer (`convert_to_srt`) and the
  first-segment corrector (`fix_first_segment_start_time`,
  `estimate_audio_length`);
* `src/cleaning_and_sanitization.py` — phrase normalization
  (`normalize_phrase`), the sanitizer (`sanitize_srt_file`) and the
  always-remove phrase set of `cleanup_output_dir`.

Real numbers of seconds are modelled as rationals (the Python sources use
floats; at every concrete input used below the float computation is exact at
the printed precision), durations as integer microseconds (CPython's
`timedelta` representation), fallible parsing as `Option`.  Python primitives
used by the sources (`%`/`//` on numbers, `int()` truncation, `str.strip`,
`str.split`, `str.replace(old,new,1)`, `f"{n:02}"` padding, `str(timedelta)`,
`datetime.strptime` with format `"%H:%M:%S,%f"`) are embedded first, each
following CPython's documented behaviour.
-/

namespace TranscribeSrt

/-! ## Python primitives -/

/-- The characters of Python's default whitespace set for `str.strip` /
`str.split()` (ASCII part, which covers every string handled below). -/
def pyIsSpace (c : Char) : Bool :=
  c = ' ' || c = '\t' || c = '\n' || c = '\r' || c = '\x0b' || c = '\x0c'

/-- Python `str.strip()` (no argument): drop leading and trailing whitespace. -/
def pyStrip (s : String) : String :=
  String.mk (((s.data.dropWhile pyIsSpace).reverse.dropWhile pyIsSpace).reverse)

/-- Counts maximal non-whitespace runs; the `Bool` flag records whether the
previous character was inside a word. -/
def countWordsAux : List Char → Bool → Nat
  | [], _ => 0
  | c :: rest, inWord =>
    if pyIsSpace c then countWordsAux rest false
    else (if inWord then 0 else 1) + countWordsAux rest true

/-- `len(s.split())` in Python: the number of whitespace-delimited tokens. -/
def wordCount (s : String) : Nat := countWordsAux s.data false

/-- Python floor division `a // b` of two numbers (result as an integer,
as produced by `int(a // b)` on a float whose value is already integral). -/
def pyFloorDiv (a b : ℚ) : Int := ⌊a / b⌋

/-- Python `a % b`: remainder with the sign of the divisor,
`a - b * (a // b)`. -/
def pyMod (a b : ℚ) : ℚ := a - b * (⌊a / b⌋ : ℚ)

/-- Python `int(x)` on a number: truncation toward zero. -/
def pyTrunc (q : ℚ) : Int := q.num.tdiv q.den

/-- Helper for `pySplitNN`: split a character list at every (non-overlapping,
leftmost-first) occurrence of two consecutive newlines, accumulating the
current piece in reverse. -/
def splitNNAux : List Char → List Char → List (List Char)
  | [], acc => [acc.reverse]
  | '\n' :: '\n' :: rest, acc => acc.reverse :: splitNNAux rest []
  | c :: rest, acc => splitNNAux rest (c :: acc)

/-- Python `s.split('\n\n')`: the pieces between consecutive occurrences of
the two-character separator (empty pieces kept, `[s]` when the separator
does not occur). -/
def pySplitNN (s : String) : List String :=
  (splitNNAux s.data []).map String.mk

/-- Zero-pad the decimal digits `s` on the left to width `w`. -/
def zfill (w : Nat) (s : String) : String :=
  String.mk (List.replicate (w - s.length) '0' ++ s.data)

/-- Python `f"{n:0w}"` for an integer `n`: zero-pad to minimum width `w`;
for a negative number the sign comes first and the digits are padded to
width `w - 1` (so the sign counts toward the width). -/
def pyPad (w : Nat) (n : Int) : String :=
  if n < 0 then "-" ++ zfill (w - 1) (Nat.repr n.natAbs)
  else zfill w (Nat.repr n.toNat)

/-! ## Timestamp codec (`src/utils.py`) -/

/-- `format_time(seconds)` from `src/utils.py` lines 62-70:

    hours = int(seconds // 3600)
    minutes = int((seconds % 3600) // 60)
    secs = int(seconds % 60)
    milliseconds = int((seconds - int(seconds)) * 1000)
    return f"{hours:02}:{minutes:02}:{secs:02},{milliseconds:02}"

Note the program pads the milliseconds field to width 2, not 3. -/
def format_time (seconds : ℚ) : String :=
  let hours : Int := pyFloorDiv seconds 3600
  let minutes : Int := pyFloorDiv (pyMod seconds 3600) 60
  let secs : Int := pyTrunc (pyMod seconds 60)
  let milliseconds : Int := pyTrunc ((seconds - (pyTrunc seconds : ℚ)) * 1000)
  pyPad 2 hours ++ ":" ++ pyPad 2 minutes ++ ":" ++ pyPad 2 secs ++ "," ++
    pyPad 2 milliseconds

/-! ### `datetime.strptime(timestamp, "%H:%M:%S,%f")`

CPython's `strptime` compiles the format into the regular expression
`(?P<H>2[0-3]|[0-1]\d|\d):(?P<M>[0-5]\d|\d):(?P<S>6[0-1]|[0-5]\d|\d),(?P<f>[0-9]{1,6})`,
matches it at the start of the input with full backtracking across the
alternations, and raises `ValueError` unless the match consumes the whole
string.  The `%f` digits are right-padded with zeros to six digits and read
as microseconds.  The embedding below returns the elapsed time of
`strptime(ts) - datetime(1900,1,1)` in integer microseconds, or `none` where
Python raises. -/

/-- Decimal value of `c.toNat - 48` for a digit character. -/
def digitVal (c : Char) : Nat := c.toNat - 48

/-- Regex alternative `2[0-3]` (hours 20-23). -/
def match2023 : List Char → Option (Nat × List Char)
  | c1 :: c2 :: rest =>
    if c1 = '2' ∧ '0' ≤ c2 ∧ c2 ≤ '3' then some (20 + digitVal c2, rest)
    else none
  | _ => none

/-- Regex alternative `[0-1]\d` (two-digit hours 00-19). -/
def match01d : List Char → Option (Nat × List Char)
  | c1 :: c2 :: rest =>
    if (c1 = '0' ∨ c1 = '1') ∧ c2.isDigit then
      some (10 * digitVal c1 + digitVal c2, rest)
    else none
  | _ => none

/-- Regex alternative `[0-5]\d` (two-digit minutes/seconds 00-59). -/
def match05d : List Char → Option (Nat × List Char)
  | c1 :: c2 :: rest =>
    if ('0' ≤ c1 ∧ c1 ≤ '5') ∧ c2.isDigit then
      some (10 * digitVal c1 + digitVal c2, rest)
    else none
  | _ => none

/-- Regex alternative `6[0-1]` (leap seconds 60-61 accepted by `%S`). -/
def match61 : List Char → Option (Nat × List Char)
  | c1 :: c2 :: rest =>
    if c1 = '6' ∧ ('0' ≤ c2 ∧ c2 ≤ '1') then some (60 + digitVal c2, rest)
    else none
  | _ => none

/-- Regex alternative `\d` (a single digit). -/
def matchd : List Char → Option (Nat × List Char)
  | c :: rest => if c.isDigit then some (digitVal c, rest) else none
  | _ => none

/-- Ordered regex alternation with backtracking: try each alternative in
order; if the alternative matches but the continuation `k` fails, fall
through to the next alternative, exactly as the compiled `strptime` regex
backtracks. -/
def tryAlts (alts : List (List Char → Option (Nat × List Char)))
    (cs : List Char) (k : Nat → List Char → Option Int) : Option Int :=
  match alts with
  | [] => none
  | a :: rest =>
    match a cs with
    | some (v, cs') =>
      match k v cs' with
      | some r => some r
      | none => tryAlts rest cs k
    | none => tryAlts rest cs k

/-- Decimal value of a digit string. -/
def digitsVal : List Char → Nat
  | [] => 0
  | c :: rest => digitVal c * 10 ^ rest.length + digitsVal rest

/-- The `%f` field at the end of the pattern: `[0-9]{1,6}` followed by the
end of the input (`strptime` raises on unconverted trailing data), read as a
fraction right-padded with zeros to six digits, i.e. microseconds. -/
def matchFrac (cs : List Char) : Option Int :=
  if cs ≠ [] ∧ cs.length ≤ 6 ∧ cs.all Char.isDigit then
    some ((digitsVal cs * 10 ^ (6 - cs.length) : Nat) : Int)
  else none

/-- Continuation after `HH:MM:SS`: the literal comma, then `%f`.  The final
guard `s ≤ 59` is the `datetime` constructor's validation: the `%S` regex
accepts the leap seconds 60-61, but `datetime.strptime` then raises when
building `datetime(1900, 1, 1, h, m, s, us)`.  Placing the check here (where
it triggers backtracking) is equivalent to CPython's match-then-validate:
a 60/61 seconds field can only arise from the `6[0-1]` alternative, and every
other split of that field leaves a digit in front of the literal comma, so no
backtracked parse of such a string can succeed either. -/
def afterS (h m s : Nat) (cs : List Char) : Option Int :=
  match cs with
  | ',' :: cs' =>
    if s ≤ 59 then
      (matchFrac cs').map
        (fun us => ((h * 3600 + m * 60 + s : Nat) : Int) * 1000000 + us)
    else none
  | _ => none

/-- Continuation after `HH:MM`: the literal colon, then `%S`, then the rest. -/
def afterM (h m : Nat) (cs : List Char) : Option Int :=
  match cs with
  | ':' :: cs' => tryAlts [match61, match05d, matchd] cs' (afterS h m)
  | _ => none

/-- Continuation after `%H`: the literal colon, then `%M`, then the rest. -/
def afterH (h : Nat) (cs : List Char) : Option Int :=
  match cs with
  | ':' :: cs' => tryAlts [match05d, matchd] cs' (afterM h)
  | _ => none

/-- `parse_srt_timestamp(timestamp)` from `src/utils.py` lines 84-85:
`datetime.strptime(timestamp, "%H:%M:%S,%f") - datetime(1900, 1, 1)`,
i.e. the elapsed time encoded by the string, in microseconds.  `none`
models the `ValueError` raised on a non-matching string. -/
def parse_srt_timestamp (timestamp : String) : Option Int :=
  tryAlts [match2023, match01d, matchd] timestamp.data afterH

/-! ## `format_srt_timestamp` and the first-segment corrector -/

/-- Python `str(timedelta(seconds=n))` for an integer `n`: the timedelta is
normalized to `days` plus a non-negative remainder below one day, printed as
`H:MM:SS` with unpadded hours, preceded by `D day, ` / `D days, ` when the
day count is non-zero (singular exactly for `1` and `-1`).  The microsecond
part is zero here because `n` is a whole number of seconds. -/
def pyStrTimedeltaSeconds (n : Int) : String :=
  let days := n.fdiv 86400
  let rem := n.fmod 86400
  let hh := rem.fdiv 3600
  let mm := (rem.fmod 3600).fdiv 60
  let ss := rem.fmod 60
  let base := toString hh ++ ":" ++ pyPad 2 mm ++ ":" ++ pyPad 2 ss
  if days = 0 then base
  else toString days ++ " day" ++ (if days.natAbs = 1 then "" else "s") ++
    ", " ++ base

/-- `format_srt_timestamp(td)` from `src/utils.py` lines 88-97, on a
timedelta of `us` microseconds:

    total_seconds = int(td.total_seconds())
    milliseconds = int((td.total_seconds() - total_seconds) * 1000)
    formatted_time = str(timedelta(seconds=total_seconds))
    if '.' in formatted_time:
        formatted_time = formatted_time.split('.')[0]
    if len(formatted_time.split(':')[0]) < 2:
        formatted_time = f"0{formatted_time}"
    return f"{formatted_time},{milliseconds:03d}"

`int()` truncates toward zero, so `total_seconds` is `us` T-divided by 10^6
and the milliseconds are the T-remainder T-divided by 10^3.  The embedding
computes these exactly; CPython evaluates `td.total_seconds()` as a float,
which at worst perturbs the last milliseconds digit for values that are not
exactly representable (every concrete input below is exact). -/
def format_srt_timestamp (us : Int) : String :=
  let total_seconds := us.tdiv 1000000
  let milliseconds := (us.tmod 1000000).tdiv 1000
  let ft := pyStrTimedeltaSeconds total_seconds
  let ft :=
    if ft.data.any (· == '.') then String.mk (ft.data.takeWhile (· != '.'))
    else ft
  let ft :=
    if (ft.data.takeWhile (· != ':')).length < 2 then "0" ++ ft else ft
  ft ++ "," ++ pyPad 3 milliseconds

/-- `estimate_audio_length(word_count, wpm=50)` from `src/utils.py` lines
100-102 returns `timedelta(minutes=word_count / 50)`, i.e.
`word_count * 6/5` seconds = `word_count * 1200000` microseconds (exact:
CPython rounds `minutes * 60 * 10^6` to the nearest microsecond, which is
`1200000 * word_count` for every natural `word_count`). -/
def estimate_audio_length (word_count : Nat) : Int :=
  1200000 * (word_count : Int)

/-- Character class `[\d:,]` of the first-block regex. -/
def isTsChar (c : Char) : Bool := c.isDigit || c = ':' || c = ','

/-- `re.match(r'(\d+)\n([\d:,]+) --> ([\d:,]+)\n(.+)', first_segment,
re.DOTALL)` from `src/utils.py` line 124, returning the four groups.  Each
quantified class is followed by a character outside the class, so the greedy
maximal run is the only candidate and no backtracking can occur; `(.+)` with
`DOTALL` takes the (non-empty) remainder, and `re.match` only anchors at the
start. -/
def matchFirstBlock (s : String) : Option (String × String × String × String) :=
  let cs := s.data
  let digits := cs.takeWhile Char.isDigit
  if digits = [] then none else
  match cs.drop digits.length with
  | '\n' :: cs1 =>
    let ts1 := cs1.takeWhile isTsChar
    if ts1 = [] then none else
    let cs2 := cs1.drop ts1.length
    if cs2.take 5 = (" --> ").data then
      let cs3 := cs2.drop 5
      let ts2 := cs3.takeWhile isTsChar
      if ts2 = [] then none else
      match cs3.drop ts2.length with
      | '\n' :: body =>
        if body = [] then none
        else some (String.mk digits, String.mk ts1, String.mk ts2,
          String.mk body)
      | _ => none
    else none
  | _ => none

/-- Python `s.replace(pat, rep, 1)` on the character list of `s`: replace the
leftmost occurrence of the (non-empty) pattern, if any. -/
def replaceFirstAux (pat rep : List Char) : List Char → List Char
  | [] => []
  | c :: rest =>
    if pat ≠ [] ∧ (c :: rest).take pat.length = pat then
      rep ++ (c :: rest).drop pat.length
    else c :: replaceFirstAux pat rep rest

/-- Python `s.replace(pat, rep, 1)`; an empty pattern is replaced once at the
start of the string (CPython's behaviour), though every use below has a
non-empty pattern. -/
def replaceFirst (s pat rep : String) : String :=
  if pat = "" then rep ++ s
  else String.mk (replaceFirstAux pat.data rep.data s.data)

/-- `fix_first_segment_start_time` from `src/utils.py` lines 105-158, as a
function from the file's content to the content written back.  The function
strips the content, splits it into blocks on blank lines, matches the first
block against the block regex, re-estimates the first segment's duration
from its word count at 50 words per minute, backdates the start from the
parsed end time (no clamping anywhere), replaces the first occurrence of the
old start string inside the first block, and rejoins.  Where the original
logs and leaves the file unmodified (regex failure, or the `ValueError` of
`parse_srt_timestamp` caught by the enclosing `except`), the input content
is returned unchanged. -/
def fix_first_segment_start_time (content : String) : String :=
  match pySplitNN (pyStrip content) with
  | [] => content
  | b0 :: rest =>
    match matchFirstBlock b0 with
    | none => content
    | some (_, startS, endS, text) =>
      match parse_srt_timestamp endS with
      | none => content
      | some endUs =>
        let correct := endUs - estimate_audio_length (wordCount text)
        replaceFirst b0 startS (format_srt_timestamp correct) ++ "\n\n" ++
          String.intercalate "\n\n" rest

/-! ## Subtitle serializer (`convert_to_srt`, `src/utils.py` lines 20-59) -/

/-- One transcription segment as accessed by `convert_to_srt`: each of
`start`, `end` (named `stop` here, `end` being reserved) and `text` is
`none` when the corresponding attribute is missing. -/
structure Segment where
  start : Option ℚ
  stop : Option ℚ
  text : Option String
deriving DecidableEq

/-- The emitted lines of `convert_to_srt`'s loop, with the running 1-based
`index` that increments only over emitted segments.  A segment is skipped
when its start or end is missing or its stripped text is empty. -/
def srtLines : List Segment → Nat → List String
  | [], _ => []
  | seg :: rest, index =>
    let text := (seg.text.map pyStrip).getD ""
    match seg.start, seg.stop with
    | some st, some en =>
      if text = "" then srtLines rest index
      else
        toString index :: (format_time st ++ " --> " ++ format_time en) ::
          text :: "" :: srtLines rest (index + 1)
    | _, _ => srtLines rest index

/-- `convert_to_srt(transcription_response)`: an empty (or missing) segment
list yields `""`; otherwise the accumulated lines are joined with newlines
(also `""` when every segment was skipped, since `"\n".join([]) == ""`). -/
def convert_to_srt (segments : List Segment) : String :=
  match segments with
  | [] => ""
  | _ => String.intercalate "\n" (srtLines segments 1)

/-! ## Phrase sanitizer (`src/cleaning_and_sanitization.py`) -/

/-- Python `\w` (word character), ASCII part: alphanumeric or underscore
(every phrase handled below is ASCII). -/
def isWordChar (c : Char) : Bool := c.isAlphanum || c = '_'

/-- Replace each whitespace character by a space and squeeze consecutive
spaces to one, the effect of `re.sub(r'\s+', ' ', phrase)`. -/
def squeezeSpaces : List Char → List Char
  | [] => []
  | [c] => [c]
  | a :: b :: rest =>
    if a = ' ' ∧ b = ' ' then squeezeSpaces (b :: rest)
    else a :: squeezeSpaces (b :: rest)

/-- `normalize_phrase(phrase)` from `src/cleaning_and_sanitization.py` lines
20-28: drop every character that is neither a word character nor whitespace
(`re.sub(r'[^\w\s]', '', ...)`), collapse whitespace runs to single spaces
(`re.sub(r'\s+', ' ', ...)`), strip, lower-case. -/
def normalize_phrase (phrase : String) : String :=
  let kept := phrase.data.filter (fun c => isWordChar c || pyIsSpace c)
  let collapsed := squeezeSpaces (kept.map (fun c => if pyIsSpace c then ' ' else c))
  String.mk (((collapsed.dropWhile (· = ' ')).reverse.dropWhile
    (· = ' ')).reverse.map Char.toLower)

/-- One `pysrt` subtitle entry as used by `sanitize_srt_file`: its 1-based
index, start and end times (microseconds; `end` is reserved, hence `stop`)
and text.  A parsed SRT file is the list of its entries in file order. -/
structure SrtItem where
  index : Int
  start : Int
  stop : Int
  text : String
deriving DecidableEq

/-- Number of subtitles in `subs` whose normalized text is `p` — the entry
`phrase_counts[p]` built by the counting loop of `sanitize_srt_file`. -/
def phraseCount (subs : List SrtItem) (p : String) : Nat :=
  subs.countP (fun s => normalize_phrase s.text == p)

/-- The filter predicate of `sanitize_srt_file`: an entry is kept iff its
normalized text is not in `phrases_to_remove`, the union of the over-repeated
set `{p | phrase_counts[p] >= max_repeats}` and the normalized additional
phrases.  (Membership of `normalize_phrase s.text` in the over-repeated set
is exactly `max_repeats ≤ phraseCount subs (normalize_phrase s.text)`, since
every subtitle's normalized text is a key of the count table.) -/
def keepPhrase (subs : List SrtItem) (max_repeats : Nat)
    (normAdditional : List String) (p : String) : Bool :=
  !(decide (max_repeats ≤ phraseCount subs p) || normAdditional.contains p)

/-- `subtitles.clean_indexes()`'s reindexing loop: entry `i` (0-based) gets
index `n + i`; `pysrt` calls it with the list in order and `n = 1`.
Modelled from the spec: `pysrt` is an external dependency whose code is not
part of this repository; spec §4.4 Pass 3 — "reassign sequential 1-based
indices to the surviving blocks in their original relative order". -/
def renumberFrom (n : Int) : List SrtItem → List SrtItem
  | [] => []
  | s :: rest => { s with index := n } :: renumberFrom (n + 1) rest

/-- `sanitize_srt_file` from `src/cleaning_and_sanitization.py` lines 30-92,
on the parsed entry list: count normalized phrases, drop every entry whose
normalized text is over-repeated (`count >= max_repeats`) or matches a
normalized additional phrase, then renumber the survivors from 1.  File
parsing and saving (`pysrt.open` / `.save`) are the identity on this
list-of-entries view of the file. -/
def sanitize_srt_file (subs : List SrtItem) (max_repeats : Nat)
    (additional_phrases : List String) : List SrtItem :=
  let normAdditional := additional_phrases.map normalize_phrase
  renumberFrom 1
    (subs.filter (fun s =>
      keepPhrase subs max_repeats normAdditional (normalize_phrase s.text)))

/-- The seventeen adjacent string literals written (without separating
commas) inside the `additional_phrases_to_remove` set display of
`cleanup_output_dir`, `src/cleaning_and_sanitization.py` lines 108-126, in
source order.  (The fourth-from-last literal contains an apostrophe, built
here with `Char.ofNat 39`.) -/
def boilerplateLiterals : List String :=
  [ "If the audio file contain only music or some section contain music then ignore music and non vocals."
  , "The audio file must only contain english language and non vocals."
  , "If the audio file contain only music or some section contain non vocals then ignore music and non vocals."
  , "If the audio file contain only music and non vocals then ignore music and non vocals."
  , "This is the audio file."
  , "Does the video made by Jason Blazer reference in bildamic on davinci 3200?"
  , "the files are not shown in davinci due to security reason."
  , "The files share dictations"
  , "If the audio file contain only music or some section contain music and non vocals then ignore music and non vocals."
  , "Leave it in the menu Preview option."
  , "The audio file must contain only music and non vocals."
  , "If the audio file contain only music and non vocals then ignore music and non vocals."
  , "If the audio file contain only music or some section contain music and non vocals then ignore music and non vocals."
  , "I displayed that the audio file in SIREN use English speaking ASL and not a mixed language."
  , "Don" ++ String.singleton (Char.ofNat 39) ++ "t forget to comment your opinion."
  , "Because it not need it."
  , "Hope this ..." ]

/-- The value of `additional_phrases_to_remove` in `cleanup_output_dir`:
because the literals are adjacent with no separating commas, Python
concatenates them into a single string, so the set literal has exactly one
element. -/
def additional_phrases_to_remove : List String :=
  [String.join boilerplateLiterals]

/-! ## Claim theorems

Batteries marks the rational-number arithmetic operations `irreducible`,
which blocks `decide`'s evaluation of closed rational computations; they are
restored to the default reducibility locally (a change of elaboration
transparency only, with no logical content). -/

set_option allowUnsafeReducibility true
attribute [local semireducible] Rat.add Rat.sub Rat.mul Rat.div Rat.neg Rat.inv

/-- **C1** (code_bug).  The round-trip law fails on the code: for
`t = 0.05` seconds, `format_time` renders the 50-millisecond remainder as
the two-digit field `50` (the f-string pads milliseconds to width 2, not 3),
and `parse_srt_timestamp` reads `,50` as the fraction `0.50` seconds, i.e.
500000 microseconds — not the 50000 microseconds (`0.05` truncated to whole
milliseconds) that the round-trip law requires. -/
theorem C1_roundtrip_fails_at_five_hundredths :
    format_time (1 / 20 : ℚ) = "00:00:00,50"
    ∧ parse_srt_timestamp (format_time (1 / 20 : ℚ)) = some 500000
    ∧ (500000 : Int) ≠ 50000 := by
  refine ⟨by decide, by decide, by decide⟩

/-- **C5** (code_bug).  `format_time` does not produce a three-digit
zero-padded milliseconds field: the format string pads milliseconds with
`:02`, so `0.05` s renders as `00:00:00,50` (claimed: `00:00:00,050`) and
`0` s as `00:00:00,00` (claimed: `00:00:00,000`); only remainders of at
least 100 ms get three digits, as in `4.5` s → `00:00:04,500`. -/
theorem C5_format_time_pads_milliseconds_to_width_two :
    format_time (1 / 20 : ℚ) = "00:00:00,50"
    ∧ format_time 0 = "00:00:00,00"
    ∧ format_time (9 / 2 : ℚ) = "00:00:04,500" := by
  refine ⟨by decide, by decide, by decide⟩

/-- **C8** (code_bug).  The serializer's skipping and indexing behave as
claimed (the empty-text second segment is skipped, one block with index 1 is
emitted, and an empty segment list yields the empty string), but the emitted
time range is `00:00:00,00 --> 00:00:02,00` — `format_time`'s two-digit
milliseconds field — not the claimed `00:00:00,000 --> 00:00:02,000`. -/
theorem C8_scenario_A_emits_two_digit_milliseconds :
    convert_to_srt
        [⟨some 0, some 2, some "Hello there"⟩, ⟨some 2, some (9 / 2), some ""⟩]
      = "1\n00:00:00,00 --> 00:00:02,00\nHello there\n"
    ∧ convert_to_srt [] = "" := by
  refine ⟨by decide, by decide⟩

/-- **C2** (counterexample).  With first-block end time `00:00:02,000` and a
ten-word text, the estimated duration is 12 s, so the code computes the start
`2 s - 12 s = -10 s` and — with no clamping anywhere — writes the negative
start `-1 day, 23:59:50,000` (Python's rendering of a negative timedelta)
into the file, refuting "clamped to a minimum of zero" and "never
negative". -/
theorem C2_counterexample_negative_start_written :
    fix_first_segment_start_time
        "1\n00:00:01,000 --> 00:00:02,000\na b c d e f g h i j"
      = "1\n-1 day, 23:59:50,000 --> 00:00:02,000\na b c d e f g h i j\n\n" := by
  decide

/-- **C6** (counterexample).  `format_time (-1.5)` returns
`-1:59:58,-500`: the hours field is the (negative) floor division, minutes
and seconds come from Python's non-negative `%`, and the milliseconds field
is a negative truncation — not the claimed clamped-to-zero
`00:00:00,000`. -/
theorem C6_counterexample_negative_input_not_clamped :
    format_time (-3 / 2 : ℚ) = "-1:59:58,-500" := by
  decide

/-- Renumbering does not change the number of entries. -/
theorem renumberFrom_length (n : Int) (l : List SrtItem) :
    (renumberFrom n l).length = l.length := by
  induction l generalizing n with
  | nil => rfl
  | cons s rest ih => simp [renumberFrom, ih]

/-- Renumbering changes only the `index` field: the (start, end, text)
content of the entries is unchanged, in order. -/
theorem renumberFrom_map_content (n : Int) (l : List SrtItem) :
    (renumberFrom n l).map (fun s => (s.start, s.stop, s.text)) =
      l.map (fun s => (s.start, s.stop, s.text)) := by
  induction l generalizing n with
  | nil => rfl
  | cons s rest ih => simp [renumberFrom, ih]

/-- The indices produced by renumbering from `n` are `n, n+1, ...` in
order. -/
theorem renumberFrom_map_index (n : Int) (l : List SrtItem) :
    (renumberFrom n l).map (fun s => s.index) =
      (List.range l.length).map (fun i : Nat => (i : Int) + n) := by
  induction l generalizing n with
  | nil => rfl
  | cons s rest ih =>
    rw [renumberFrom, List.map_cons, ih, List.length_cons,
      List.range_succ_eq_map, List.map_cons, List.map_map]
    congr 1
    · simp
    · refine List.map_congr_left fun i _ => ?_
      simp only [Function.comp_apply]
      push_cast [Nat.succ_eq_add_one]
      ring

/-- Renumbering a list with a phrase-level predicate on the text counts the
same entries as before the renumbering. -/
theorem countP_renumberFrom (n : Int) (l : List SrtItem) (f : String → Bool) :
    (renumberFrom n l).countP (fun s => f s.text) =
      l.countP (fun s => f s.text) := by
  induction l generalizing n with
  | nil => rfl
  | cons s rest ih => simp [renumberFrom, List.countP_cons, ih]

/-- `phraseCount` only looks at texts, so it is invariant under
renumbering. -/
theorem phraseCount_renumberFrom (n : Int) (l : List SrtItem) (p : String) :
    phraseCount (renumberFrom n l) p = phraseCount l p :=
  countP_renumberFrom n l (fun t => normalize_phrase t == p)

/-- Every entry of a renumbered list carries the text of an entry of the
original list. -/
theorem text_mem_of_mem_renumberFrom {s : SrtItem} {n : Int}
    {l : List SrtItem} (h : s ∈ renumberFrom n l) :
    ∃ x ∈ l, s.text = x.text := by
  induction l generalizing n with
  | nil => simp [renumberFrom] at h
  | cons a rest ih =>
    rw [renumberFrom, List.mem_cons] at h
    rcases h with h | h
    · exact ⟨a, List.mem_cons_self a rest, by simp [h]⟩
    · obtain ⟨x, hx, ht⟩ := ih h
      exact ⟨x, List.mem_cons_of_mem a hx, ht⟩

/-- Renumbering from the same base twice is the same as renumbering once. -/
theorem renumberFrom_renumberFrom (n : Int) (l : List SrtItem) :
    renumberFrom n (renumberFrom n l) = renumberFrom n l := by
  induction l generalizing n with
  | nil => rfl
  | cons s rest ih => simp [renumberFrom, ih]

/-- Filtering by a predicate that depends on the entries only through a
phrase-level keep function does not change the count of a phrase the
function keeps: all of that phrase's entries survive the filter. -/
theorem phraseCount_filter_of_keep (q : String → Bool) (l : List SrtItem)
    (p : String) (hq : q p = true) :
    phraseCount (l.filter (fun s => q (normalize_phrase s.text))) p =
      phraseCount l p := by
  induction l with
  | nil => rfl
  | cons s rest ih =>
    rw [List.filter_cons]
    by_cases hk : q (normalize_phrase s.text) = true
    · rw [if_pos hk]
      simp only [phraseCount, List.countP_cons] at ih ⊢
      omega
    · rw [if_neg hk]
      have hp : normalize_phrase s.text ≠ p := fun h => hk (h ▸ hq)
      have hbeq : (normalize_phrase s.text == p) = false := by simp [hp]
      simp only [phraseCount, List.countP_cons, hbeq, Bool.false_eq_true,
        if_false] at ih ⊢
      exact ih

/-- **C3** (confirmed).  For every parsed SRT file, threshold and denylist:
the survivors of `sanitize_srt_file` are exactly (and in their original
relative order) the entries whose normalized text both occurs fewer than
`max_repeats` times in the file and differs from every normalized denylist
entry; the survivors' indices are `1, 2, ..., n-k`; and the spec's scenario
B — five entries all normalizing to "thank you for watching" with
`max_repeats = 5` — sanitizes to zero entries. -/
theorem C3_sanitize_removal_rule_reindexing_scenarioB :
    (∀ (subs : List SrtItem) (max_repeats : Nat) (additional : List String),
      (sanitize_srt_file subs max_repeats additional).map
          (fun s => (s.start, s.stop, s.text)) =
        (subs.filter (fun s =>
          decide (phraseCount subs (normalize_phrase s.text) < max_repeats ∧
            normalize_phrase s.text ∉ additional.map normalize_phrase))).map
          (fun s => (s.start, s.stop, s.text))
      ∧ (sanitize_srt_file subs max_repeats additional).map
            (fun s => s.index) =
          (List.range (sanitize_srt_file subs max_repeats additional).length).map
            (fun i : Nat => (i : Int) + 1))
    ∧ sanitize_srt_file
        [⟨1, 0, 1, "Thank you for watching!"⟩,
         ⟨2, 1, 2, "thank you for watching"⟩,
         ⟨3, 2, 3, "Thank You For Watching."⟩,
         ⟨4, 3, 4, " thank   you for watching "⟩,
         ⟨5, 4, 5, "THANK YOU FOR WATCHING"⟩] 5 [] = [] := by
  constructor
  · intro subs max_repeats additional
    constructor
    · rw [sanitize_srt_file, renumberFrom_map_content]
      refine congrArg _ (List.filter_congr fun s _ => ?_)
      by_cases h1 : max_repeats ≤ phraseCount subs (normalize_phrase s.text)
      · have h1' : ¬ phraseCount subs (normalize_phrase s.text) < max_repeats := by
          omega
        simp [keepPhrase, List.contains, h1, h1']
      · have h1' : phraseCount subs (normalize_phrase s.text) < max_repeats := by
          omega
        by_cases h2 : normalize_phrase s.text ∈ additional.map normalize_phrase
        · simp [keepPhrase, List.contains, h1, h1', h2]
        · simp [keepPhrase, List.contains, h1, h1', h2]
    · rw [sanitize_srt_file, renumberFrom_map_index, renumberFrom_length]
  · decide

/-- **C4** (confirmed).  Sanitizing an already-sanitized entry list again,
with the same threshold and the same denylist, removes nothing and returns
the identical list: a surviving phrase keeps its full occurrence count (its
entries are removed all-or-none), so no survivor newly reaches the
threshold, no survivor matches the denylist, and renumbering is idempotent. -/
theorem C4_sanitize_idempotent (subs : List SrtItem) (max_repeats : Nat)
    (additional : List String) :
    sanitize_srt_file (sanitize_srt_file subs max_repeats additional)
        max_repeats additional =
      sanitize_srt_file subs max_repeats additional := by
  show sanitize_srt_file
      (renumberFrom 1 (subs.filter fun s =>
        keepPhrase subs max_repeats (additional.map normalize_phrase)
          (normalize_phrase s.text)))
      max_repeats additional =
    renumberFrom 1 (subs.filter fun s =>
      keepPhrase subs max_repeats (additional.map normalize_phrase)
        (normalize_phrase s.text))
  set X := subs.filter (fun s =>
    keepPhrase subs max_repeats (additional.map normalize_phrase)
      (normalize_phrase s.text)) with hX
  have hkeep : ∀ s ∈ renumberFrom 1 X,
      keepPhrase (renumberFrom 1 X) max_repeats
        (additional.map normalize_phrase) (normalize_phrase s.text) = true := by
    intro s hs
    obtain ⟨x, hxX, hts⟩ := text_mem_of_mem_renumberFrom hs
    rw [hX] at hxX
    have hxq : keepPhrase subs max_repeats (additional.map normalize_phrase)
        (normalize_phrase x.text) = true := (List.mem_filter.mp hxX).2
    have hcounts : phraseCount (renumberFrom 1 X) (normalize_phrase x.text) =
        phraseCount subs (normalize_phrase x.text) := by
      rw [phraseCount_renumberFrom, hX,
        phraseCount_filter_of_keep _ subs _ hxq]
    rw [hts, keepPhrase, hcounts]
    rw [keepPhrase] at hxq
    exact hxq
  calc sanitize_srt_file (renumberFrom 1 X) max_repeats additional
      = renumberFrom 1 ((renumberFrom 1 X).filter fun s =>
          keepPhrase (renumberFrom 1 X) max_repeats
            (additional.map normalize_phrase) (normalize_phrase s.text)) := rfl
    _ = renumberFrom 1 (renumberFrom 1 X) := by
          rw [List.filter_eq_self.mpr hkeep]
    _ = renumberFrom 1 X := renumberFrom_renumberFrom 1 X

/-- The character data of `pyPad` on a negative integer starts with the
minus sign. -/
theorem pyPad_neg_data (w : Nat) (n : Int) (h : n < 0) :
    (pyPad w n).data = '-' :: (zfill (w - 1) (Nat.repr n.natAbs)).data := by
  rw [pyPad, if_pos h]
  simp

/-- **C2** (amended).  When the stripped file content splits into a first
block and a rest, the first block matches the block regex and its end
timestamp decodes to `endUs` microseconds, then
`fix_first_segment_start_time` rewrites the file by replacing, inside the
first block only, the first occurrence of the start string with the
rendering of `endUs - 1200000·word_count` microseconds (the 50-wpm
estimate), leaving the remaining blocks as they were — with no clamping at
zero anywhere — and the corrected start value never exceeds the segment's
own end value. -/
theorem C2_amended_first_segment_correction
    (content b0 idx startS endS tx : String) (rest : List String)
    (endUs : Int)
    (hsplit : pySplitNN (pyStrip content) = b0 :: rest)
    (hmatch : matchFirstBlock b0 = some (idx, startS, endS, tx))
    (hparse : parse_srt_timestamp endS = some endUs) :
    fix_first_segment_start_time content =
      replaceFirst b0 startS
        (format_srt_timestamp
          (endUs - estimate_audio_length (wordCount tx))) ++ "\n\n" ++
        String.intercalate "\n\n" rest
    ∧ endUs - estimate_audio_length (wordCount tx) ≤ endUs := by
  constructor
  · unfold fix_first_segment_start_time
    rw [hsplit]
    dsimp only
    rw [hmatch]
    dsimp only
    rw [hparse]
  · unfold estimate_audio_length
    omega

/-- Witness for C2: a concrete two-word file with end time `00:00:02,000`;
the estimate is 2.4 s, so the start written is `00:00:02,000` backdated by
2.4 s, i.e. -0.4 s. -/
theorem C2_amended_first_segment_correction_witness :
    pySplitNN (pyStrip "1\n00:00:01,000 --> 00:00:02,000\nhello world\n") =
      ["1\n00:00:01,000 --> 00:00:02,000\nhello world"]
    ∧ matchFirstBlock "1\n00:00:01,000 --> 00:00:02,000\nhello world" =
      some ("1", "00:00:01,000", "00:00:02,000", "hello world")
    ∧ parse_srt_timestamp "00:00:02,000" = some 2000000
    ∧ (fix_first_segment_start_time
          "1\n00:00:01,000 --> 00:00:02,000\nhello world\n" =
        replaceFirst "1\n00:00:01,000 --> 00:00:02,000\nhello world"
            "00:00:01,000"
            (format_srt_timestamp
              (2000000 - estimate_audio_length (wordCount "hello world"))) ++
          "\n\n" ++ String.intercalate "\n\n" []
      ∧ 2000000 - estimate_audio_length (wordCount "hello world") ≤ 2000000) :=
  ⟨by decide, by decide, by decide,
    C2_amended_first_segment_correction
      "1\n00:00:01,000 --> 00:00:02,000\nhello world\n"
      "1\n00:00:01,000 --> 00:00:02,000\nhello world"
      "1" "00:00:01,000" "00:00:02,000" "hello world" [] 2000000
      (by decide) (by decide) (by decide)⟩

/-- **C6** (amended).  On every negative input `format_time` returns a
string without raising, but the output is not clamped to zero: the hours
value `⌊t/3600⌋` is negative, so the output begins with a minus sign and is
in particular never the well-formed clamped timestamp `00:00:00,000`. -/
theorem C6_amended_negative_input_unclamped (t : ℚ) (ht : t < 0) :
    (format_time t).data.head? = some '-'
    ∧ format_time t ≠ "00:00:00,000" := by
  have hdiv : t / 3600 < 0 := div_neg_of_neg_of_pos ht (by norm_num)
  have hfl : pyFloorDiv t 3600 < 0 := by
    rw [pyFloorDiv]
    exact Int.floor_lt.mpr (by exact_mod_cast hdiv)
  have hhead : (format_time t).data.head? = some '-' := by
    rw [show format_time t =
      pyPad 2 (pyFloorDiv t 3600) ++ ":" ++
        pyPad 2 (pyFloorDiv (pyMod t 3600) 60) ++ ":" ++
        pyPad 2 (pyTrunc (pyMod t 60)) ++ "," ++
        pyPad 2 (pyTrunc ((t - (pyTrunc t : ℚ)) * 1000)) from rfl]
    simp [String.data_append, pyPad_neg_data 2 _ hfl]
  refine ⟨hhead, fun h => ?_⟩
  have h2 := congrArg (fun s => s.data.head?) h
  simp only at h2
  rw [hhead] at h2
  exact absurd h2 (by decide)

/-- Witness for C6 at `t = -1.5`. -/
theorem C6_amended_negative_input_unclamped_witness :
    (-3 / 2 : ℚ) < 0
    ∧ ((format_time (-3 / 2 : ℚ)).data.head? = some '-'
      ∧ format_time (-3 / 2 : ℚ) ≠ "00:00:00,000") :=
  ⟨by norm_num, C6_amended_negative_input_unclamped _ (by norm_num)⟩

/-- The two decimal digits of a number below 100 (spec-side rendering). -/
def twoDigitChars (n : Nat) : List Char :=
  [Nat.digitChar (n / 10), Nat.digitChar (n % 10)]

/-- The three decimal digits of a number below 1000 (spec-side rendering). -/
def threeDigitChars (n : Nat) : List Char :=
  [Nat.digitChar (n / 100), Nat.digitChar (n / 10 % 10), Nat.digitChar (n % 10)]

/-- The spec's canonical `HH:MM:SS,mmm` timestamp shape, written from the
claim's words (two-digit zero-padded hour, minute and second fields, a
three-digit zero-padded milliseconds field, colon and comma separators), to
be compared with the behaviour of `parse_srt_timestamp`. -/
def specCanonicalTimestamp (h m s ms : Nat) : String :=
  String.mk (twoDigitChars h ++ ':' ::
    (twoDigitChars m ++ ':' :: (twoDigitChars s ++ ',' :: threeDigitChars ms)))

/-- `digitVal` inverts `Nat.digitChar` on decimal digits. -/
theorem digitVal_digitChar (d : Nat) (hd : d ≤ 9) :
    digitVal (Nat.digitChar d) = d := by
  interval_cases d <;> rfl

/-- `Nat.digitChar` of a decimal digit is a digit character. -/
theorem isDigit_digitChar (d : Nat) (hd : d ≤ 9) :
    (Nat.digitChar d).isDigit = true := by
  interval_cases d <;> rfl

/-- A successful first alternative whose continuation also succeeds decides
the alternation. -/
theorem tryAlts_cons_pos {a : List Char → Option (Nat × List Char)}
    {alts : List (List Char → Option (Nat × List Char))} {cs : List Char}
    {k : Nat → List Char → Option Int} {n : Nat} {cs' : List Char} {v : Int}
    (ha : a cs = some (n, cs')) (hk : k n cs' = some v) :
    tryAlts (a :: alts) cs k = some v := by
  simp only [tryAlts, ha, hk]

/-- A failing first alternative passes control to the remaining ones. -/
theorem tryAlts_cons_fail {a : List Char → Option (Nat × List Char)}
    {alts : List (List Char → Option (Nat × List Char))} {cs : List Char}
    {k : Nat → List Char → Option Int} (ha : a cs = none) :
    tryAlts (a :: alts) cs k = tryAlts alts cs k := by
  simp only [tryAlts, ha]

/-- Evaluation of `match2023` on two characters. -/
theorem match2023_eq (c1 c2 : Char) (r : List Char) :
    match2023 (c1 :: c2 :: r) =
      if c1 = '2' ∧ '0' ≤ c2 ∧ c2 ≤ '3' then some (20 + digitVal c2, r)
      else none := rfl

/-- Evaluation of `match01d` on two characters. -/
theorem match01d_eq (c1 c2 : Char) (r : List Char) :
    match01d (c1 :: c2 :: r) =
      if (c1 = '0' ∨ c1 = '1') ∧ c2.isDigit then
        some (10 * digitVal c1 + digitVal c2, r)
      else none := rfl

/-- Evaluation of `match05d` on two characters. -/
theorem match05d_eq (c1 c2 : Char) (r : List Char) :
    match05d (c1 :: c2 :: r) =
      if ('0' ≤ c1 ∧ c1 ≤ '5') ∧ c2.isDigit then
        some (10 * digitVal c1 + digitVal c2, r)
      else none := rfl

/-- Evaluation of `match61` on two characters. -/
theorem match61_eq (c1 c2 : Char) (r : List Char) :
    match61 (c1 :: c2 :: r) =
      if c1 = '6' ∧ ('0' ≤ c2 ∧ c2 ≤ '1') then some (60 + digitVal c2, r)
      else none := rfl

/-- Digit characters for 0 and 1 are not `'2'`. -/
theorem digitChar_ne_two (d : Nat) (hd : d ≤ 1) : Nat.digitChar d ≠ '2' := by
  interval_cases d <;> decide

/-- Digit characters for 0 and 1 are `'0'` or `'1'`. -/
theorem digitChar_zero_or_one (d : Nat) (hd : d ≤ 1) :
    Nat.digitChar d = '0' ∨ Nat.digitChar d = '1' := by
  interval_cases d <;> decide

/-- Digit characters for 0..3 lie in the character range `'0'..'3'`. -/
theorem digitChar_between_0_3 (d : Nat) (hd : d ≤ 3) :
    '0' ≤ Nat.digitChar d ∧ Nat.digitChar d ≤ '3' := by
  interval_cases d <;> decide

/-- Digit characters for 0..5 lie in the character range `'0'..'5'`. -/
theorem digitChar_between_0_5 (d : Nat) (hd : d ≤ 5) :
    '0' ≤ Nat.digitChar d ∧ Nat.digitChar d ≤ '5' := by
  interval_cases d <;> decide

/-- Digit characters for 0..5 are not `'6'`. -/
theorem digitChar_ne_six (d : Nat) (hd : d ≤ 5) : Nat.digitChar d ≠ '6' := by
  interval_cases d <;> decide

/-- The `%H` alternation on a canonical two-digit hour field: when the
continuation succeeds on the remainder with the hour's value, the whole
alternation returns that result (the `2[0-3]` alternative fires for hours
20-23, the `[0-1]\d` alternative for hours 00-19). -/
theorem tryAltsH_spec (h : Nat) (hh : h ≤ 23) (r : List Char)
    (k : Nat → List Char → Option Int) (v : Int) (hk : k h r = some v) :
    tryAlts [match2023, match01d, matchd] (twoDigitChars h ++ r) k = some v := by
  have hd2 : h % 10 ≤ 9 := by omega
  rw [twoDigitChars]
  simp only [List.cons_append, List.nil_append]
  by_cases h20 : 20 ≤ h
  · have hq : h / 10 = 2 := by omega
    have hb := digitChar_between_0_3 (h % 10) (by omega)
    refine tryAlts_cons_pos ?_ hk
    rw [hq, show Nat.digitChar 2 = '2' from rfl, match2023_eq,
      if_pos ⟨rfl, hb.1, hb.2⟩, digitVal_digitChar _ hd2,
      show (20 : Nat) + h % 10 = h from by omega]
  · have hq : h / 10 ≤ 1 := by omega
    rw [tryAlts_cons_fail (by
      rw [match2023_eq, if_neg]
      rintro ⟨hc, -⟩
      exact digitChar_ne_two _ hq hc)]
    refine tryAlts_cons_pos ?_ hk
    rw [match01d_eq,
      if_pos ⟨digitChar_zero_or_one _ hq, isDigit_digitChar _ hd2⟩,
      digitVal_digitChar _ (hq.trans (by omega)), digitVal_digitChar _ hd2,
      show 10 * (h / 10) + h % 10 = h from by omega]

/-- The `%M` alternation on a canonical two-digit minute field: the
`[0-5]\d` alternative fires. -/
theorem tryAltsM_spec (m : Nat) (hm : m ≤ 59) (r : List Char)
    (k : Nat → List Char → Option Int) (v : Int) (hk : k m r = some v) :
    tryAlts [match05d, matchd] (twoDigitChars m ++ r) k = some v := by
  have hd2 : m % 10 ≤ 9 := by omega
  have hq : m / 10 ≤ 5 := by omega
  rw [twoDigitChars]
  simp only [List.cons_append, List.nil_append]
  refine tryAlts_cons_pos ?_ hk
  rw [match05d_eq,
    if_pos ⟨digitChar_between_0_5 _ hq, isDigit_digitChar _ hd2⟩,
    digitVal_digitChar _ (hq.trans (by omega)), digitVal_digitChar _ hd2,
    show 10 * (m / 10) + m % 10 = m from by omega]

/-- The `%S` alternation on a canonical two-digit second field below 60:
the `6[0-1]` alternative fails and the `[0-5]\d` alternative fires. -/
theorem tryAltsS_spec (s : Nat) (hs : s ≤ 59) (r : List Char)
    (k : Nat → List Char → Option Int) (v : Int) (hk : k s r = some v) :
    tryAlts [match61, match05d, matchd] (twoDigitChars s ++ r) k = some v := by
  have hd2 : s % 10 ≤ 9 := by omega
  have hq : s / 10 ≤ 5 := by omega
  rw [twoDigitChars]
  simp only [List.cons_append, List.nil_append]
  rw [tryAlts_cons_fail (by
    rw [match61_eq, if_neg]
    rintro ⟨hc, -⟩
    exact digitChar_ne_six _ hq hc)]
  refine tryAlts_cons_pos ?_ hk
  rw [match05d_eq,
    if_pos ⟨digitChar_between_0_5 _ hq, isDigit_digitChar _ hd2⟩,
    digitVal_digitChar _ (hq.trans (by omega)), digitVal_digitChar _ hd2,
    show 10 * (s / 10) + s % 10 = s from by omega]

/-- The `%f` field on a canonical three-digit milliseconds field: three
digits, right-padded to six, give `ms * 1000` microseconds. -/
theorem matchFrac_threeDigitChars (ms : Nat) (hms : ms ≤ 999) :
    matchFrac (threeDigitChars ms) = some ((ms * 1000 : Nat) : Int) := by
  have h1 : ms / 100 ≤ 9 := by omega
  have h2 : ms / 10 % 10 ≤ 9 := by omega
  have h3 : ms % 10 ≤ 9 := by omega
  have hall : (threeDigitChars ms).all Char.isDigit = true := by
    simp [threeDigitChars, isDigit_digitChar _ h1, isDigit_digitChar _ h2,
      isDigit_digitChar _ h3]
  rw [matchFrac,
    if_pos ⟨by simp [threeDigitChars], by simp [threeDigitChars], hall⟩]
  simp only [threeDigitChars, digitsVal, digitVal_digitChar _ h1,
    digitVal_digitChar _ h2, digitVal_digitChar _ h3]
  norm_num
  omega

/-- **C7** (amended).  `parse_srt_timestamp` succeeds on every canonical
`HH:MM:SS,mmm` string whose hour is at most 23, returning the elapsed time
in microseconds, and fails on wrong separators and non-digit fields; but a
wrong field width does not always make it fail (`%f` accepts one to six
digits, read as a left-padded fraction, and one-digit hour/minute/second
fields are accepted), and it also fails on well-shaped strings whose hour
exceeds 23 or whose seconds field is a leap second. -/
theorem C7_amended_parse_characterization
    (h m s ms : Nat) (hh : h ≤ 23) (hm : m ≤ 59) (hs : s ≤ 59)
    (hms : ms ≤ 999) :
    parse_srt_timestamp (specCanonicalTimestamp h m s ms) =
      some (((h * 3600 + m * 60 + s : Nat) : Int) * 1000000 +
        ((ms * 1000 : Nat) : Int))
    ∧ parse_srt_timestamp "0:00:00,5" = some 500000
    ∧ parse_srt_timestamp "00:00:00,5000" = some 500000
    ∧ parse_srt_timestamp "00.00.00,000" = none
    ∧ parse_srt_timestamp "0a:00:00,000" = none
    ∧ parse_srt_timestamp "25:00:00,000" = none
    ∧ parse_srt_timestamp "00:00:61,000" = none := by
  refine ⟨?_, by decide, by decide, by decide, by decide, by decide,
    by decide⟩
  show tryAlts [match2023, match01d, matchd]
    (twoDigitChars h ++ ':' ::
      (twoDigitChars m ++ ':' ::
        (twoDigitChars s ++ ',' :: threeDigitChars ms))) afterH = some _
  refine tryAltsH_spec h hh _ afterH _ ?_
  show afterH h (':' ::
    (twoDigitChars m ++ ':' ::
      (twoDigitChars s ++ ',' :: threeDigitChars ms))) = some _
  rw [afterH]
  refine tryAltsM_spec m hm _ _ _ ?_
  show afterM h m (':' :: (twoDigitChars s ++ ',' :: threeDigitChars ms)) =
    some _
  rw [afterM]
  refine tryAltsS_spec s hs _ _ _ ?_
  show afterS h m s (',' :: threeDigitChars ms) = some _
  rw [afterS, if_pos hs, matchFrac_threeDigitChars ms hms]
  rfl

/-- Witness for C7 at the canonical timestamp `01:02:03,045`. -/
theorem C7_amended_parse_characterization_witness :
    (1 : Nat) ≤ 23 ∧ (2 : Nat) ≤ 59 ∧ (3 : Nat) ≤ 59 ∧ (45 : Nat) ≤ 999
    ∧ (parse_srt_timestamp (specCanonicalTimestamp 1 2 3 45) =
        some (((1 * 3600 + 2 * 60 + 3 : Nat) : Int) * 1000000 +
          ((45 * 1000 : Nat) : Int))
      ∧ parse_srt_timestamp "0:00:00,5" = some 500000
      ∧ parse_srt_timestamp "00:00:00,5000" = some 500000
      ∧ parse_srt_timestamp "00.00.00,000" = none
      ∧ parse_srt_timestamp "0a:00:00,000" = none
      ∧ parse_srt_timestamp "25:00:00,000" = none
      ∧ parse_srt_timestamp "00:00:61,000" = none) :=
  ⟨by decide, by decide, by decide, by decide,
    C7_amended_parse_characterization 1 2 3 45 (by decide) (by decide)
      (by decide) (by decide)⟩

/-- **C7** (counterexample).  A milliseconds field that is not exactly three
digits does not make `parse_srt_timestamp` fail: `strptime`'s `%f` accepts
one to six digits, so `00:00:00,50` parses successfully (to 0.5 s =
500000 µs) where the claim requires a format error. -/
theorem C7_counterexample_two_digit_fraction_accepted :
    parse_srt_timestamp "00:00:00,50" = some 500000 := by
  rfl

set_option maxRecDepth 8000 in
/-- **C10** (confirmed).  The always-remove set that `cleanup_output_dir`
passes to `sanitize_srt_file` is a singleton: its seventeen adjacent string
literals carry no separating commas, so Python concatenates them into one
long string.  No individual boilerplate phrase normalizes to the
concatenation's normalization, so a block carrying any one of the listed
phrases (once) is never removed by the denylist rule — while a block whose
text is the whole concatenation is removed. -/
theorem C10_denylist_is_singleton_concatenation :
    additional_phrases_to_remove.length = 1
    ∧ boilerplateLiterals.all (fun p =>
        !((additional_phrases_to_remove.map normalize_phrase).contains
          (normalize_phrase p))) = true
    ∧ (∀ p ∈ boilerplateLiterals,
        sanitize_srt_file [⟨1, 0, 2000000, p⟩] 5 additional_phrases_to_remove =
          [⟨1, 0, 2000000, p⟩])
    ∧ sanitize_srt_file [⟨1, 0, 2000000, String.join boilerplateLiterals⟩] 5
        additional_phrases_to_remove = [] := by
  refine ⟨rfl, by decide, ?_, by decide⟩
  intro p hp
  fin_cases hp <;> decide

/-- Witness for C10 at the boilerplate phrase "This is the audio file.". -/
theorem C10_denylist_is_singleton_concatenation_witness :
    "This is the audio file." ∈ boilerplateLiterals
    ∧ sanitize_srt_file [⟨1, 0, 2000000, "This is the audio file."⟩] 5
        additional_phrases_to_remove =
      [⟨1, 0, 2000000, "This is the audio file."⟩] :=
  ⟨by decide, C10_denylist_is_singleton_concatenation.2.2.1 _ (by decide)⟩

end TranscribeSrt
